import Mathlib

/-!
Shallow embedding of `mautrix_telegram/commands/telegram/auth.py`:
the interactive Telegram login command handlers (`login-qr`,
`enter-phone-or-token`, `enter-code`, `enter-password`) and the shared
helpers `_request_code`, `_sign_in`, `_finish_sign_in`.

External collaborators (the Telethon client, the Matrix messaging API,
the account store) are modelled at their interface: each handler takes the
outcome of the provider call as a parameter and returns the ordered list
of observable effects it performs (replies, redactions, sign-in calls,
continuation-slot writes, background-task scheduling).  The per-account
continuation slot `evt.sender.command_status` is tracked through
`Effect.setStatus` writes, folded by `statusAfter`.
-/

namespace MTAuth

/-- A Telegram user object (`telethon.tl.types.User`), as used here:
numeric id, optional username, phone number. -/
structure TgUser where
  id : Nat
  username : Option String
  phone : String
deriving DecidableEq, Repr

/-- A bridge user (`mautrix_telegram.user.User`): Matrix user ID,
display name, and the human-readable Telegram handle used in replies. -/
structure Account where
  mxid : String
  displayname : String
  human_tg_id : String
deriving DecidableEq, Repr

/-- Which continuation handler `command_status["next"]` points at. -/
inductive StepKind where
  | enterPhoneOrToken
  | enterCode
  | enterPassword
deriving DecidableEq, Repr

/-- The continuation slot `evt.sender.command_status`: the next handler,
the `action` label, and the optional `login_as` metadata entry (absent
keys are modelled as `none`, matching `.get("login_as", None)`). -/
structure CommandStatus where
  next : StepKind
  action : String
  login_as : Option Account
deriving DecidableEq, Repr

/-- Keyword arguments passed to `client.sign_in(...)`. -/
structure SignInInfo where
  phone : Option String
  bot_token : Option String
  code : Option String
  password : Option String
deriving DecidableEq, Repr

/-- Observable effects of one handler invocation, in execution order. -/
inductive Effect where
  | reply (msg : String)
  | redactEvent
  | redactChallenge
  | ensureStarted (a : Account)
  | signInCall (a : Account) (info : SignInInfo)
  | logOut (a : Account)
  | schedulePostLogin (a : Account) (u : TgUser)
  | setStatus (s : Option CommandStatus)
  | recreateChallenge
  | uploadQr
  | waitScan
  | editChallenge (msg : String)
deriving DecidableEq, Repr

/-- Outcome of a `client.sign_in(...)` call inside `_sign_in`. -/
inductive SignInResult where
  | success (u : TgUser)
  | phoneCodeExpired
  | phoneCodeInvalid
  | passwordHashInvalid
  | sessionPasswordNeeded
  | accessTokenInvalid
  | accessTokenExpired
  | otherError
deriving DecidableEq, Repr

/-- Exceptions `_sign_in` does not catch and lets propagate to its caller. -/
inductive Raised where
  | accessTokenInvalid
  | accessTokenExpired
  | otherError
deriving DecidableEq, Repr

/-- Outcome of the `client.sign_in(phone_number)` call in `_request_code`. -/
inductive CodeRequestResult where
  | success
  | appSignupForbidden
  | phoneNumberFlood
  | floodWait (seconds : Nat)
  | phoneNumberBanned
  | phoneNumberUnoccupied
  | phoneNumberInvalid
  | otherError
deriving DecidableEq, Repr

/-- Modelled from the spec: `format_duration` is an out-of-scope external
collaborator (only applied, never inspected, by this module). -/
def fmt_duration (seconds : Nat) : String :=
  toString seconds ++ " seconds"

/-- The continuation slot after executing a trace, starting from `init`:
the last `setStatus` write wins. -/
def statusAfter (init : Option CommandStatus) : List Effect → Option CommandStatus
  | [] => init
  | Effect.setStatus s :: rest => statusAfter s rest
  | _ :: rest => statusAfter init rest

/-- `name = f"@\x7buser.username\x7d" if user.username else f"+\x7buser.phone\x7d"` -/
def tgName (u : TgUser) : String :=
  match u.username with
  | some un => "@" ++ un
  | none => "+" ++ u.phone

/-- The eviction notice sent when another account was logged out. -/
def logoutNotice (a : Account) : String :=
  "[" ++ a.displayname ++ "] (https://matrix.to/#/" ++ a.mxid ++
    ") was logged out from the account."

/-- The final success reply of `_finish_sign_in`. -/
def successMsg (sender login_as : Account) (u : TgUser) : String :=
  if login_as ≠ sender then
    "Successfully logged in [" ++ login_as.mxid ++ "](https://matrix.to/#/" ++
      login_as.mxid ++ ") as " ++ tgName u
  else
    "Successfully logged in as " ++ tgName u

/-- `_finish_sign_in(evt, user, login_as=None)`.  `existing_user` is the
result of the external lookup `u.User.get_by_tgid(user.id)`. -/
def finish_sign_in (sender : Account) (user : TgUser) (login_as_arg : Option Account)
    (existing_user : Option Account) : List Effect :=
  let login_as := login_as_arg.getD sender
  (match existing_user with
   | some ex =>
     if ex ≠ login_as then
       [Effect.logOut ex, Effect.reply (logoutNotice ex)]
     else []
   | none => []) ++
  [Effect.schedulePostLogin login_as user,
   Effect.setStatus none,
   Effect.reply (successMsg sender login_as user)]

/-- `_sign_in(evt, login_as=None, **sign_in_info)`.  Returns the effect
trace and, when the body raised an exception that `_sign_in` does not
catch, that exception.  Note the success branch calls
`_finish_sign_in(evt, user)` without forwarding `login_as`. -/
def sign_in (sender : Account) (login_as_arg : Option Account) (info : SignInInfo)
    (result : SignInResult) (existing_user : Option Account) :
    List Effect × Option Raised :=
  let login_as := login_as_arg.getD sender
  let pre := [Effect.ensureStarted login_as, Effect.signInCall login_as info]
  match result with
  | SignInResult.success u =>
    (pre ++ finish_sign_in sender u none existing_user, none)
  | SignInResult.phoneCodeExpired =>
    (pre ++ [Effect.reply "Phone code expired. Try again with `$cmdprefix+sp login`."], none)
  | SignInResult.phoneCodeInvalid =>
    (pre ++ [Effect.reply "Invalid phone code."], none)
  | SignInResult.passwordHashInvalid =>
    (pre ++ [Effect.reply "Incorrect password."], none)
  | SignInResult.sessionPasswordNeeded =>
    (pre ++ [Effect.setStatus (some ⟨StepKind.enterPassword, "Login (password entry)", none⟩),
             Effect.reply "Your account has two-factor authentication. Please send your password here."],
     none)
  | SignInResult.accessTokenInvalid => (pre, some Raised.accessTokenInvalid)
  | SignInResult.accessTokenExpired => (pre, some Raised.accessTokenExpired)
  | SignInResult.otherError => (pre, some Raised.otherError)

/-- `_request_code(evt, phone_number, next_status)`.  The `finally`
block writes the slot after the reply of whichever branch ran:
`next_status` when the request succeeded (`ok`), `None` otherwise. -/
def request_code (sender : Account) (phone_number : String)
    (next_status : CommandStatus) (result : CodeRequestResult) : List Effect :=
  [Effect.ensureStarted sender,
   Effect.signInCall sender ⟨some phone_number, none, none, none⟩] ++
  (match result with
   | CodeRequestResult.success =>
     [Effect.reply ("Login code sent to " ++ phone_number ++ ". Please send the code here.")]
   | CodeRequestResult.appSignupForbidden =>
     [Effect.reply "Your phone number does not allow 3rd party apps to sign in."]
   | CodeRequestResult.phoneNumberFlood =>
     [Effect.reply ("Your phone number has been temporarily blocked for flooding. " ++
       "The ban is usually applied for around a day.")]
   | CodeRequestResult.floodWait s =>
     [Effect.reply ("Your phone number has been temporarily blocked for flooding. " ++
       "Please wait for " ++ fmt_duration s ++ " before trying again.")]
   | CodeRequestResult.phoneNumberBanned =>
     [Effect.reply "Your phone number has been banned from Telegram."]
   | CodeRequestResult.phoneNumberUnoccupied =>
     [Effect.reply ("That phone number has not been registered. " ++
       "Please sign up to Telegram using an official mobile client first.")]
   | CodeRequestResult.phoneNumberInvalid =>
     [Effect.reply "That phone number is not valid."]
   | CodeRequestResult.otherError =>
     [Effect.reply "Unhandled exception while requesting code. Check console for more details."]) ++
  [Effect.setStatus
    (match result with
     | CodeRequestResult.success => some next_status
     | _ => none)]

/-- Python `str.find`, auxiliary: index of the first occurrence. -/
def pyFindAux (c : Char) : List Char → Option Nat
  | [] => none
  | a :: t => if a = c then some 0 else (pyFindAux c t).map (· + 1)

/-- Python `str.find`: first index of `c` in `s`, or `-1` when absent. -/
def pyFind (s : List Char) (c : Char) : Int :=
  match pyFindAux c s with
  | some i => (i : Int)
  | none => -1

def usage_phone_or_token : String :=
  "**Usage:** `$cmdprefix+sp enter-phone-or-token <phone-or-token>`"

def usage_code : String :=
  "**Usage:** `$cmdprefix+sp enter-code <code>`"

def usage_password : String :=
  "**Usage:** `$cmdprefix+sp enter-password <password>`"

def no_matrix_login_msg : String :=
  "This bridge instance does not allow in-Matrix login. " ++
    "Please use `$cmdprefix+sp login` to get login instructions"

/-- `enter_phone_or_token(evt)`.  `result` is the outcome of the
token-path `_sign_in` call; `codeResult` that of the phone-path
`_request_code` call (only the branch taken consults its parameter). -/
def enter_phone_or_token (sender : Account) (args : List String)
    (allow_matrix_login : Bool) (result : SignInResult)
    (codeResult : CodeRequestResult) (existing_user : Option Account) : List Effect :=
  match args with
  | [] => [Effect.reply usage_phone_or_token]
  | arg0 :: _ =>
    if ¬ allow_matrix_login then [Effect.reply no_matrix_login_msg]
    else if pyFind arg0.toList ':' > 0 then
      match sign_in sender none ⟨none, some arg0, none, none⟩ result existing_user with
      | (tr, none) => tr
      | (tr, some _) =>
        tr ++ [Effect.reply "Unhandled exception while sending auth token. Check console for more details."]
    else
      request_code sender arg0 ⟨StepKind.enterCode, "Login", none⟩ codeResult

/-- `enter_code(evt)`. -/
def enter_code (sender : Account) (args : List String)
    (allow_matrix_login : Bool) (result : SignInResult)
    (existing_user : Option Account) : List Effect :=
  match args with
  | [] => [Effect.reply usage_code]
  | arg0 :: _ =>
    if ¬ allow_matrix_login then [Effect.reply no_matrix_login_msg]
    else
      match sign_in sender none ⟨none, none, some arg0, none⟩ result existing_user with
      | (tr, none) => tr
      | (tr, some _) =>
        tr ++ [Effect.reply "Unhandled exception while sending code. Check console for more details."]

/-- `enter_password(evt)`.  `status` is `evt.sender.command_status`; when
it is `None` the attribute access `.get("login_as", None)` raises inside
the `try`, landing in the generic handler. -/
def enter_password (sender : Account) (status : Option CommandStatus)
    (args : List String) (allow_matrix_login : Bool) (result : SignInResult)
    (existing_user : Option Account) : List Effect :=
  match args with
  | [] => [Effect.reply usage_password]
  | _ =>
    if ¬ allow_matrix_login then [Effect.reply no_matrix_login_msg]
    else
      Effect.redactEvent ::
      (match status with
       | none =>
         [Effect.reply "Unhandled exception while sending password. Check console for more details."]
       | some c =>
         match sign_in sender c.login_as
             ⟨none, none, none, some (String.intercalate " " args)⟩ result existing_user with
         | (tr, none) => tr
         | (tr, some Raised.accessTokenInvalid) =>
           tr ++ [Effect.reply "That bot token is not valid."]
         | (tr, some Raised.accessTokenExpired) =>
           tr ++ [Effect.reply "That bot token has expired."]
         | (tr, some Raised.otherError) =>
           tr ++ [Effect.reply "Unhandled exception while sending password. Check console for more details."])

/-- Outcome of one `qr_login.wait()` call. -/
inductive QrIterResult where
  | scanned (u : TgUser)
  | timeout
  | passwordNeeded
deriving DecidableEq, Repr

/-- How the `while retries > 0` loop of `login_qr` ended. -/
inductive QrExit where
  | timedOut
  | scanned (u : TgUser)
  | passwordNeeded
deriving DecidableEq, Repr

/-- The `while retries > 0: ... else: ...` loop of `login_qr`.
`results i` is the outcome of the `qr_login.wait()` call of iteration
`i`; the second argument is the remaining retry budget.  On a timeout
the iteration falls through to the inner `try: redact` block before
looping; on a scan the `break` skips it. -/
def qr_loop (sender login_as : Account) (results : Nat → QrIterResult) :
    Nat → Nat → List Effect × QrExit
  | _, 0 => ([Effect.editChallenge "Login timed out"], QrExit.timedOut)
  | i, n + 1 =>
    let iter := [Effect.recreateChallenge, Effect.uploadQr, Effect.waitScan]
    match results i with
    | QrIterResult.scanned u => (iter, QrExit.scanned u)
    | QrIterResult.passwordNeeded =>
      (iter ++
        [Effect.setStatus (some ⟨StepKind.enterPassword, "Login (password entry)",
          if login_as ≠ sender then some login_as else none⟩),
         Effect.reply "Your account has two-factor authentication. Please send your password here."],
       QrExit.passwordNeeded)
    | QrIterResult.timeout =>
      let rest := qr_loop sender login_as results (i + 1) n
      (iter ++ [Effect.redactChallenge] ++ rest.1, rest.2)

/-- `login_qr(evt)` after the admin-override resolution: `login_as` is
the already-resolved acting account, `qr_supported` is the availability
of `qrcode`/`QRLogin`, `logged_in` the result of
`login_as.is_logged_in()`. -/
def login_qr (sender login_as : Account) (qr_supported logged_in : Bool)
    (results : Nat → QrIterResult) (existing_user : Option Account) : List Effect :=
  if ¬ qr_supported then
    [Effect.reply "This bridge instance does not support logging in with a QR code."]
  else if logged_in then
    [Effect.reply ("You are already logged in as " ++ login_as.human_tg_id ++ ".")]
  else
    Effect.ensureStarted login_as ::
    (let r := qr_loop sender login_as results 0 4
     match r.2 with
     | QrExit.scanned u => r.1 ++ finish_sign_in sender u (some login_as) existing_user
     | _ => r.1)

/-- Binding table restricted to one Remote Identity: which Local Account
it is bound to after an effect (`log_out` tears the binding down,
`post_login` records it). -/
def applyBinding (b : Option Account) : Effect → Option Account
  | Effect.logOut a => if b = some a then none else b
  | Effect.schedulePostLogin a _ => some a
  | _ => b

/-! Concrete fixtures used by witnesses and counterexamples. -/

def S0 : Account := ⟨"@bob:example.com", "Bob", "+15550100"⟩

def A0 : Account := ⟨"@alice:example.com", "Alice", "+15550199"⟩

def U0 : TgUser := ⟨42, some "handle42", "1234567"⟩

def cCode : CommandStatus := ⟨StepKind.enterCode, "Login", none⟩

def cPwd : CommandStatus := ⟨StepKind.enterPassword, "Login (password entry)", none⟩

def cOverride : CommandStatus := ⟨StepKind.enterPassword, "Login (password entry)", some A0⟩

/-- C1: when the authenticated Remote Identity is already bound to a
Local Account `A` different from the acting account, `_finish_sign_in`
logs `A` out and sends the eviction notice naming `A` before scheduling
`post_login` (which records the binding) for the acting account; the
single-Remote-Identity binding cell is torn down (`none`) after the
first two effects and points at the acting account at the end. -/
theorem finish_sign_in_evicts_before_binding
    (sender : Account) (la : Option Account) (A : Account) (u : TgUser)
    (hne : A ≠ la.getD sender) :
    finish_sign_in sender u la (some A) =
      [Effect.logOut A, Effect.reply (logoutNotice A),
       Effect.schedulePostLogin (la.getD sender) u, Effect.setStatus none,
       Effect.reply (successMsg sender (la.getD sender) u)] ∧
    List.foldl applyBinding (some A)
      (List.take 2 (finish_sign_in sender u la (some A))) = none ∧
    List.foldl applyBinding (some A) (finish_sign_in sender u la (some A)) =
      some (la.getD sender) := by
  have htr : finish_sign_in sender u la (some A) =
      [Effect.logOut A, Effect.reply (logoutNotice A),
       Effect.schedulePostLogin (la.getD sender) u, Effect.setStatus none,
       Effect.reply (successMsg sender (la.getD sender) u)] := by
    simp [finish_sign_in, hne]
  refine ⟨htr, ?_, ?_⟩ <;> rw [htr] <;> simp [applyBinding]

theorem finish_sign_in_evicts_before_binding_witness :
    A0 ≠ (none : Option Account).getD S0 ∧
    (finish_sign_in S0 U0 none (some A0) =
      [Effect.logOut A0, Effect.reply (logoutNotice A0),
       Effect.schedulePostLogin ((none : Option Account).getD S0) U0,
       Effect.setStatus none,
       Effect.reply (successMsg S0 ((none : Option Account).getD S0) U0)] ∧
    List.foldl applyBinding (some A0)
      (List.take 2 (finish_sign_in S0 U0 none (some A0))) = none ∧
    List.foldl applyBinding (some A0) (finish_sign_in S0 U0 none (some A0)) =
      some ((none : Option Account).getD S0)) :=
  ⟨by decide, finish_sign_in_evicts_before_binding S0 none A0 U0 (by decide)⟩

/-- C2 counterexample: submitting an expired code leaves the
continuation slot exactly as it was (still pointing at `enter_code`),
so the slot is not cleared and the state does not return to Idle. -/
theorem enter_code_expired_slot_counterexample :
    statusAfter (some cCode)
      (enter_code S0 ["12345"] true SignInResult.phoneCodeExpired none) =
      some cCode ∧
    some cCode ≠ (none : Option CommandStatus) :=
  ⟨rfl, by decide⟩

/-- C2 (amended): on an expired or invalid code the user gets the
specific reason as a reply, but the continuation slot is left unchanged
(no `command_status` write happens), so a code retry remains possible
without restarting from the identifier step. -/
theorem enter_code_error_keeps_slot (sender : Account) (init : Option CommandStatus)
    (a0 : String) (rest : List String) (ex : Option Account) (r : SignInResult)
    (hr : r = SignInResult.phoneCodeExpired ∨ r = SignInResult.phoneCodeInvalid) :
    enter_code sender (a0 :: rest) true r ex =
      [Effect.ensureStarted sender,
       Effect.signInCall sender ⟨none, none, some a0, none⟩,
       Effect.reply
         (match r with
          | SignInResult.phoneCodeExpired =>
            "Phone code expired. Try again with `$cmdprefix+sp login`."
          | _ => "Invalid phone code.")] ∧
    statusAfter init (enter_code sender (a0 :: rest) true r ex) = init := by
  rcases hr with h | h <;> subst h <;> exact ⟨rfl, rfl⟩

theorem enter_code_error_keeps_slot_witness :
    (SignInResult.phoneCodeExpired = SignInResult.phoneCodeExpired ∨
      SignInResult.phoneCodeExpired = SignInResult.phoneCodeInvalid) ∧
    (enter_code S0 ["12345"] true SignInResult.phoneCodeExpired none =
      [Effect.ensureStarted S0,
       Effect.signInCall S0 ⟨none, none, some "12345", none⟩,
       Effect.reply
         (match SignInResult.phoneCodeExpired with
          | SignInResult.phoneCodeExpired =>
            "Phone code expired. Try again with `$cmdprefix+sp login`."
          | _ => "Invalid phone code.")] ∧
    statusAfter (some cCode)
      (enter_code S0 ["12345"] true SignInResult.phoneCodeExpired none) =
      some cCode) :=
  ⟨Or.inl rfl,
   enter_code_error_keeps_slot S0 (some cCode) "12345" [] none
     SignInResult.phoneCodeExpired (Or.inl rfl)⟩

/-- C6: a password submission while the slot awaits a password that the
provider rejects as an invalid password replies "Incorrect password."
and performs no `command_status` write, so the slot stays exactly as it
was (still awaiting a password); every further submission is an
independent attempt. -/
theorem enter_password_invalid_password_retry (sender : Account) (c : CommandStatus)
    (a0 : String) (rest : List String) (ex : Option Account)
    (hc : c.next = StepKind.enterPassword) :
    enter_password sender (some c) (a0 :: rest) true
        SignInResult.passwordHashInvalid ex =
      [Effect.redactEvent,
       Effect.ensureStarted (c.login_as.getD sender),
       Effect.signInCall (c.login_as.getD sender)
         ⟨none, none, none, some (String.intercalate " " (a0 :: rest))⟩,
       Effect.reply "Incorrect password."] ∧
    statusAfter (some c) (enter_password sender (some c) (a0 :: rest) true
      SignInResult.passwordHashInvalid ex) = some c :=
  ⟨rfl, rfl⟩

theorem enter_password_invalid_password_retry_witness :
    cPwd.next = StepKind.enterPassword ∧
    (enter_password S0 (some cPwd) ["hunter2"] true
        SignInResult.passwordHashInvalid none =
      [Effect.redactEvent,
       Effect.ensureStarted (cPwd.login_as.getD S0),
       Effect.signInCall (cPwd.login_as.getD S0)
         ⟨none, none, none, some (String.intercalate " " ["hunter2"])⟩,
       Effect.reply "Incorrect password."] ∧
    statusAfter (some cPwd) (enter_password S0 (some cPwd) ["hunter2"] true
      SignInResult.passwordHashInvalid none) = some cPwd) :=
  ⟨rfl,
   enter_password_invalid_password_retry S0 cPwd "hunter2" [] none rfl⟩

/-- C10: whatever the provider outcome, the password submitted by
`enter_password` is the arguments joined by single spaces, as one
value. -/
theorem enter_password_joins_args (sender : Account) (c : CommandStatus)
    (a0 : String) (rest : List String) (r : SignInResult) (ex : Option Account) :
    Effect.signInCall (c.login_as.getD sender)
      ⟨none, none, none, some (String.intercalate " " (a0 :: rest))⟩ ∈
      enter_password sender (some c) (a0 :: rest) true r ex := by
  cases r <;> simp [enter_password, sign_in, finish_sign_in]

/-- C3: when every `qr_login.wait()` call of the attempt times out,
`login_qr` runs exactly 4 loop iterations (create + publish + wait,
then the fall-through redact), edits the published challenge message to
"Login timed out", and writes no `command_status`, so the continuation
slot is unchanged (still empty when it was empty). -/
theorem login_qr_all_timeouts (sender login_as : Account) (ex : Option Account)
    (init : Option CommandStatus) (results : Nat → QrIterResult)
    (h : ∀ i, i < 4 → results i = QrIterResult.timeout) :
    login_qr sender login_as true false results ex =
      [Effect.ensureStarted login_as,
       Effect.recreateChallenge, Effect.uploadQr, Effect.waitScan, Effect.redactChallenge,
       Effect.recreateChallenge, Effect.uploadQr, Effect.waitScan, Effect.redactChallenge,
       Effect.recreateChallenge, Effect.uploadQr, Effect.waitScan, Effect.redactChallenge,
       Effect.recreateChallenge, Effect.uploadQr, Effect.waitScan, Effect.redactChallenge,
       Effect.editChallenge "Login timed out"] ∧
    statusAfter init (login_qr sender login_as true false results ex) = init := by
  have h0 := h 0 (by norm_num)
  have h1 := h 1 (by norm_num)
  have h2 := h 2 (by norm_num)
  have h3 := h 3 (by norm_num)
  have htr : login_qr sender login_as true false results ex =
      [Effect.ensureStarted login_as,
       Effect.recreateChallenge, Effect.uploadQr, Effect.waitScan, Effect.redactChallenge,
       Effect.recreateChallenge, Effect.uploadQr, Effect.waitScan, Effect.redactChallenge,
       Effect.recreateChallenge, Effect.uploadQr, Effect.waitScan, Effect.redactChallenge,
       Effect.recreateChallenge, Effect.uploadQr, Effect.waitScan, Effect.redactChallenge,
       Effect.editChallenge "Login timed out"] := by
    simp [login_qr, qr_loop, h0, h1, h2, h3]
  refine ⟨htr, ?_⟩
  rw [htr]
  rfl

theorem login_qr_all_timeouts_witness :
    (∀ i, i < 4 → (fun _ => QrIterResult.timeout) i = QrIterResult.timeout) ∧
    (login_qr S0 S0 true false (fun _ => QrIterResult.timeout) none =
      [Effect.ensureStarted S0,
       Effect.recreateChallenge, Effect.uploadQr, Effect.waitScan, Effect.redactChallenge,
       Effect.recreateChallenge, Effect.uploadQr, Effect.waitScan, Effect.redactChallenge,
       Effect.recreateChallenge, Effect.uploadQr, Effect.waitScan, Effect.redactChallenge,
       Effect.recreateChallenge, Effect.uploadQr, Effect.waitScan, Effect.redactChallenge,
       Effect.editChallenge "Login timed out"] ∧
    statusAfter none (login_qr S0 S0 true false (fun _ => QrIterResult.timeout) none) =
      none) :=
  ⟨fun _ _ => rfl,
   login_qr_all_timeouts S0 S0 none none (fun _ => QrIterResult.timeout)
     (fun _ _ => rfl)⟩

/-- C4: evaluation of the code at the failing input.  The continuation
metadata records acting account `A0` (admin QR override), the invoking
sender is `S0`, and the provider accepts the password.  The sign-in call
goes to `A0`, but because `_sign_in` calls `_finish_sign_in(evt, user)`
without forwarding `login_as`, the post-login task is scheduled for the
invoking sender `S0` — not `A0` — and the success reply is the
non-override form `successMsg S0 S0 U0`. -/
theorem enter_password_override_finalized_as_sender :
    Effect.signInCall A0 ⟨none, none, none, some "hunter2"⟩ ∈
      enter_password S0 (some cOverride) ["hunter2"] true
        (SignInResult.success U0) none ∧
    Effect.schedulePostLogin S0 U0 ∈
      enter_password S0 (some cOverride) ["hunter2"] true
        (SignInResult.success U0) none ∧
    Effect.schedulePostLogin A0 U0 ∉
      enter_password S0 (some cOverride) ["hunter2"] true
        (SignInResult.success U0) none ∧
    Effect.reply (successMsg S0 S0 U0) ∈
      enter_password S0 (some cOverride) ["hunter2"] true
        (SignInResult.success U0) none := by
  decide

/-- C5: evaluation of the code at the failing input.  When the first
`qr_login.wait()` resolves with a successful scan, the `break` leaves
the loop before the redact statement, so the published challenge
message is never redacted on the scan path (the handoff to
`_finish_sign_in` still happens); the redact instead runs after a
timed-out iteration. -/
theorem login_qr_scan_skips_redaction :
    Effect.redactChallenge ∉
      login_qr S0 S0 true false (fun _ => QrIterResult.scanned U0) none ∧
    Effect.schedulePostLogin S0 U0 ∈
      login_qr S0 S0 true false (fun _ => QrIterResult.scanned U0) none ∧
    Effect.redactChallenge ∈
      login_qr S0 S0 true false
        (fun i => if i = 0 then QrIterResult.timeout else QrIterResult.scanned U0)
        none := by
  decide

/-- C7 counterexample: `enter-code` with no argument while
`allow_matrix_login` is disabled replies with the usage message, not
the in-Matrix-login-disabled message — the argument check runs first,
not the configuration check. -/
theorem enter_code_usage_despite_disabled_login :
    enter_code S0 [] false SignInResult.otherError none =
      [Effect.reply usage_code] ∧
    usage_code ≠ no_matrix_login_msg :=
  ⟨rfl, by decide⟩

/-- C7 (amended): each continuation target first rejects with a usage
message when no argument is given — independent of `allow_matrix_login`
and of any installed continuation — and only when an argument is
present checks `allow_matrix_login`, rejecting when it is disabled. -/
theorem continuation_targets_check_order (sender : Account)
    (st : Option CommandStatus) (allow : Bool) (r : SignInResult)
    (cr : CodeRequestResult) (ex : Option Account)
    (a0 : String) (rest : List String) :
    enter_phone_or_token sender [] allow r cr ex = [Effect.reply usage_phone_or_token] ∧
    enter_code sender [] allow r ex = [Effect.reply usage_code] ∧
    enter_password sender st [] allow r ex = [Effect.reply usage_password] ∧
    enter_phone_or_token sender (a0 :: rest) false r cr ex =
      [Effect.reply no_matrix_login_msg] ∧
    enter_code sender (a0 :: rest) false r ex = [Effect.reply no_matrix_login_msg] ∧
    enter_password sender st (a0 :: rest) false r ex =
      [Effect.reply no_matrix_login_msg] :=
  ⟨rfl, rfl, rfl, rfl, rfl, rfl⟩

/-- Shape of every `_request_code` trace: lazy session initialization,
the provider call, one reply, then the `finally` slot write —
`next_status` exactly when the request succeeded, `None` otherwise. -/
theorem request_code_shape (sender : Account) (phone : String)
    (ns : CommandStatus) (cr : CodeRequestResult) :
    ∃ m, request_code sender phone ns cr =
      [Effect.ensureStarted sender,
       Effect.signInCall sender ⟨some phone, none, none, none⟩,
       Effect.reply m,
       Effect.setStatus
         (match cr with
          | CodeRequestResult.success => some ns
          | _ => none)] := by
  cases cr <;> exact ⟨_, rfl⟩

/-- C8: on the phone-number path of `enter_phone_or_token`, the session
is lazily initialized first, the continuation slot afterwards holds the
`enter_code` step exactly when the provider's code request succeeded,
it is cleared (`none`) on any failure, and a reply is always sent. -/
theorem enter_phone_code_request_slot (sender : Account) (s : String)
    (rest : List String) (r : SignInResult) (cr : CodeRequestResult)
    (init : Option CommandStatus) (ex : Option Account)
    (hphone : ¬ pyFind s.toList ':' > 0) :
    (enter_phone_or_token sender (s :: rest) true r cr ex).head? =
      some (Effect.ensureStarted sender) ∧
    (statusAfter init (enter_phone_or_token sender (s :: rest) true r cr ex) =
        some ⟨StepKind.enterCode, "Login", none⟩ ↔
      cr = CodeRequestResult.success) ∧
    (cr ≠ CodeRequestResult.success →
      statusAfter init (enter_phone_or_token sender (s :: rest) true r cr ex) =
        none) ∧
    ∃ m, Effect.reply m ∈ enter_phone_or_token sender (s :: rest) true r cr ex := by
  have hphone' : ¬ 0 < pyFind s.data ':' := hphone
  have htr : enter_phone_or_token sender (s :: rest) true r cr ex =
      request_code sender s ⟨StepKind.enterCode, "Login", none⟩ cr := by
    simp [enter_phone_or_token, hphone']
  obtain ⟨m, hm⟩ := request_code_shape sender s ⟨StepKind.enterCode, "Login", none⟩ cr
  rw [htr, hm]
  refine ⟨rfl, ?_, ?_, ⟨m, by simp⟩⟩
  · cases cr <;> simp [statusAfter]
  · cases cr <;> simp [statusAfter]

theorem enter_phone_code_request_slot_witness :
    ¬ pyFind ("12025550123".toList) ':' > 0 ∧
    ((enter_phone_or_token S0 ["12025550123"] true SignInResult.otherError
        CodeRequestResult.phoneNumberInvalid none).head? =
      some (Effect.ensureStarted S0) ∧
    (statusAfter none (enter_phone_or_token S0 ["12025550123"] true
        SignInResult.otherError CodeRequestResult.phoneNumberInvalid none) =
        some ⟨StepKind.enterCode, "Login", none⟩ ↔
      CodeRequestResult.phoneNumberInvalid = CodeRequestResult.success) ∧
    (CodeRequestResult.phoneNumberInvalid ≠ CodeRequestResult.success →
      statusAfter none (enter_phone_or_token S0 ["12025550123"] true
        SignInResult.otherError CodeRequestResult.phoneNumberInvalid none) =
        none) ∧
    ∃ m, Effect.reply m ∈ enter_phone_or_token S0 ["12025550123"] true
      SignInResult.otherError CodeRequestResult.phoneNumberInvalid none) :=
  ⟨by decide,
   enter_phone_code_request_slot S0 "12025550123" [] SignInResult.otherError
     CodeRequestResult.phoneNumberInvalid none none (by decide)⟩

theorem pyFindAux_eq_none_iff (c : Char) (l : List Char) :
    pyFindAux c l = none ↔ c ∉ l := by
  induction l with
  | nil => simp [pyFindAux]
  | cons a t ih =>
    by_cases h : a = c
    · subst h
      simp [pyFindAux]
    · simp [pyFindAux, h, Option.map_eq_none', ih, Ne.symm h]

theorem pyFind_pos_iff (c : Char) (l : List Char) :
    pyFind l c > 0 ↔ c ∈ l ∧ l.head? ≠ some c := by
  cases l with
  | nil => simp [pyFind, pyFindAux]
  | cons a t =>
    by_cases h : a = c
    · subst h
      simp [pyFind, pyFindAux]
    · rcases heq : pyFindAux c t with _ | i
      · have hnt : c ∉ t := (pyFindAux_eq_none_iff c t).mp heq
        simp [pyFind, pyFindAux, h, heq, hnt, Ne.symm h]
      · have hmem : c ∈ t := by
          by_contra hc
          rw [(pyFindAux_eq_none_iff c t).mpr hc] at heq
          exact Option.noConfusion heq
        simp [pyFind, pyFindAux, h, heq, hmem, Ne.symm h]

/-- C9: `enter_phone_or_token` submits its first argument as a bot
token (the second trace entry is a `sign_in(bot_token=...)` call)
exactly when the argument contains `':'` somewhere after its first
character — i.e. Python `find(":") > 0`; when the first character is
`':'` or no `':'` occurs at all, it instead requests a one-time login
code for the argument as a phone number (`sign_in(phone)`). -/
theorem enter_phone_or_token_token_detection (sender : Account) (s : String)
    (rest : List String) (r : SignInResult) (cr : CodeRequestResult)
    (ex : Option Account) :
    ((enter_phone_or_token sender (s :: rest) true r cr ex)[1]? =
        some (Effect.signInCall sender ⟨none, some s, none, none⟩) ↔
      (':' ∈ s.toList ∧ s.toList.head? ≠ some ':')) ∧
    ((s.toList.head? = some ':' ∨ ':' ∉ s.toList) →
      (enter_phone_or_token sender (s :: rest) true r cr ex)[1]? =
        some (Effect.signInCall sender ⟨some s, none, none, none⟩)) := by
  have hiff := pyFind_pos_iff ':' s.toList
  by_cases hp : pyFind s.toList ':' > 0
  · have hrhs : ':' ∈ s.toList ∧ s.toList.head? ≠ some ':' := hiff.mp hp
    have hp' : 0 < pyFind s.data ':' := hp
    have htr1 : (enter_phone_or_token sender (s :: rest) true r cr ex)[1]? =
        some (Effect.signInCall sender ⟨none, some s, none, none⟩) := by
      cases r <;> simp [enter_phone_or_token, hp', sign_in]
    refine ⟨by rw [htr1]; exact iff_of_true rfl hrhs, ?_⟩
    intro hcase
    exfalso
    rcases hcase with hc | hc
    · exact hrhs.2 hc
    · exact hc hrhs.1
  · have hrhs : ¬ (':' ∈ s.toList ∧ s.toList.head? ≠ some ':') :=
      fun hx => hp (hiff.mpr hx)
    have hp' : ¬ 0 < pyFind s.data ':' := hp
    have htr1 : (enter_phone_or_token sender (s :: rest) true r cr ex)[1]? =
        some (Effect.signInCall sender ⟨some s, none, none, none⟩) := by
      cases cr <;> simp [enter_phone_or_token, hp', request_code]
    refine ⟨?_, fun _ => htr1⟩
    rw [htr1]
    exact iff_of_false (by simp) hrhs

theorem enter_phone_or_token_token_detection_witness :
    (((enter_phone_or_token S0 ["12345:AAbbcc"] true SignInResult.otherError
        CodeRequestResult.otherError none)[1]? =
        some (Effect.signInCall S0 ⟨none, some "12345:AAbbcc", none, none⟩) ↔
      (':' ∈ "12345:AAbbcc".toList ∧
        "12345:AAbbcc".toList.head? ≠ some ':')) ∧
    (("12345:AAbbcc".toList.head? = some ':' ∨ ':' ∉ "12345:AAbbcc".toList) →
      (enter_phone_or_token S0 ["12345:AAbbcc"] true SignInResult.otherError
        CodeRequestResult.otherError none)[1]? =
        some (Effect.signInCall S0 ⟨some "12345:AAbbcc", none, none, none⟩))) :=
  enter_phone_or_token_token_detection S0 "12345:AAbbcc" [] SignInResult.otherError
    CodeRequestResult.otherError none

end MTAuth
